import Mathlib

/-!
Verification of the irrigation recommendation classifier of the Gatsibo
Smart Irrigation dashboard (src/app.py).  The only decision logic in the
repository is the cascading conditional at src/app.py lines 166-181, which
maps the latest week's `Irrigation_needed_mm` value to a recommendation
string, a display color and an advice string.  We embed that conditional
shallowly: Python float inputs are modelled as rationals plus the special
non-finite values NaN and +infinity, with the Python `<` semantics (a
comparison against NaN is false; +infinity is not below any finite bound).
-/

namespace Gatsibo

/-- The four advisory tiers.  Each branch of the conditional at
src/app.py:166-181 announces its tier in the `recommendation` string
("MINIMAL irrigation needed", "LIGHT irrigation recommended",
"MODERATE irrigation required", "HEAVY irrigation required"). -/
inductive Tier where
  | MINIMAL
  | LIGHT
  | MODERATE
  | HEAVY
deriving DecidableEq, Repr

/-- Severity order of the tiers, MINIMAL < LIGHT < MODERATE < HEAVY. -/
def severity_rank : Tier → ℕ
  | Tier.MINIMAL => 0
  | Tier.LIGHT => 1
  | Tier.MODERATE => 2
  | Tier.HEAVY => 3

/-- The output of one evaluation of the conditional: the branch taken
(`tier`) and the three strings the branch assigns at src/app.py:166-181.
The `color` field is the severity_color of the spec and `advice` is the
advice_text of the spec. -/
structure AdvisoryResult where
  tier : Tier
  recommendation : String
  color : String
  advice : String
deriving DecidableEq, Repr

/-- A Python float input: a finite value (modelled as a rational), NaN,
or positive infinity. -/
inductive PyFloat where
  | val (x : ℚ)
  | nan
  | inf
deriving DecidableEq, Repr

/-- The Python `<` between a float and a finite literal: NaN compares
false to everything, and +infinity is not less than any finite bound. -/
def PyFloat.lt : PyFloat → ℚ → Bool
  | PyFloat.val x, c => decide (x < c)
  | PyFloat.nan, _ => false
  | PyFloat.inf, _ => false

/-- The cascading conditional of src/app.py lines 166-181, verbatim:
`if x < 5: ... elif x < 20: ... elif x < 40: ... else: ...`, where each
branch sets `recommendation`, `color` and `advice`. -/
def recommend (x : PyFloat) : AdvisoryResult :=
  if x.lt 5 then
    ⟨Tier.MINIMAL, "MINIMAL irrigation needed", "#4CAF50",
      "Recent rainfall is sufficient. Monitor crop condition."⟩
  else if x.lt 20 then
    ⟨Tier.LIGHT, "LIGHT irrigation recommended", "#FFC107",
      "Supplement rainfall with light irrigation."⟩
  else if x.lt 40 then
    ⟨Tier.MODERATE, "MODERATE irrigation required", "#FF9800",
      "Regular irrigation needed to maintain crop health."⟩
  else
    ⟨Tier.HEAVY, "HEAVY irrigation required", "#F44336",
      "Crop water stress likely. Irrigate immediately!"⟩

/-- The classify function of the spec on a finite numeric input: the
conditional applied to the finite float `x`. -/
def classify (x : ℚ) : AdvisoryResult :=
  recommend (PyFloat.val x)

/-- The weekly record the dashboard reads (src/app.py:145, 156-164).
Only `irrigation_needed_mm` feeds the conditional; `rainfall_week_mm`
and `etc_week_mm` are displayed in metrics but never read by it. -/
structure WeeklyIrrigationRecord where
  irrigation_needed_mm : PyFloat
  rainfall_week_mm : ℚ
  etc_week_mm : ℚ

/-- The dashboard advisory for a weekly record: the conditional at
src/app.py:166-181 reads only `Irrigation_needed_mm`. -/
def dashboardRecommend (w : WeeklyIrrigationRecord) : AdvisoryResult :=
  recommend w.irrigation_needed_mm

/-- The color each branch of src/app.py:166-181 assigns, as a lookup
table keyed by the branch's tier. -/
def colorOf : Tier → String
  | Tier.MINIMAL => "#4CAF50"
  | Tier.LIGHT => "#FFC107"
  | Tier.MODERATE => "#FF9800"
  | Tier.HEAVY => "#F44336"

/-- The advice string each branch of src/app.py:166-181 assigns, as a
lookup table keyed by the branch's tier. -/
def adviceOf : Tier → String
  | Tier.MINIMAL => "Recent rainfall is sufficient. Monitor crop condition."
  | Tier.LIGHT => "Supplement rainfall with light irrigation."
  | Tier.MODERATE => "Regular irrigation needed to maintain crop health."
  | Tier.HEAVY => "Crop water stress likely. Irrigate immediately!"

/-- Unfolding lemma: on a finite input the conditional is the rational
comparison cascade. -/
theorem classify_eq_ite (x : ℚ) :
    classify x =
      if x < 5 then
        ⟨Tier.MINIMAL, "MINIMAL irrigation needed", "#4CAF50",
          "Recent rainfall is sufficient. Monitor crop condition."⟩
      else if x < 20 then
        ⟨Tier.LIGHT, "LIGHT irrigation recommended", "#FFC107",
          "Supplement rainfall with light irrigation."⟩
      else if x < 40 then
        ⟨Tier.MODERATE, "MODERATE irrigation required", "#FF9800",
          "Regular irrigation needed to maintain crop health."⟩
      else
        ⟨Tier.HEAVY, "HEAVY irrigation required", "#F44336",
          "Crop water stress likely. Irrigate immediately!"⟩ := by
  simp only [classify, recommend, PyFloat.lt, decide_eq_true_eq]

/-- Claim C1: for every non-negative rational input `x`, `classify x`
returns the tier and fixed advice text given by the half-open decision
intervals: `[0,5)` yields MINIMAL, `[5,20)` yields LIGHT, `[20,40)`
yields MODERATE and `[40,∞)` yields HEAVY, each with its advice string. -/
theorem C1_classify_intervals (x : ℚ) (hx : 0 ≤ x) :
    (x < 5 → (classify x).tier = Tier.MINIMAL ∧
      (classify x).advice = "Recent rainfall is sufficient. Monitor crop condition.") ∧
    (5 ≤ x → x < 20 → (classify x).tier = Tier.LIGHT ∧
      (classify x).advice = "Supplement rainfall with light irrigation.") ∧
    (20 ≤ x → x < 40 → (classify x).tier = Tier.MODERATE ∧
      (classify x).advice = "Regular irrigation needed to maintain crop health.") ∧
    (40 ≤ x → (classify x).tier = Tier.HEAVY ∧
      (classify x).advice = "Crop water stress likely. Irrigate immediately!") := by
  rw [classify_eq_ite]
  refine ⟨?_, ?_, ?_, ?_⟩ <;> intros <;> split_ifs <;>
    first
      | exact ⟨rfl, rfl⟩
      | (exfalso; linarith)

/-- Witness for C1 at the concrete input 3: it lies in `[0,5)` and is
classified MINIMAL with the MINIMAL advice text. -/
theorem C1_classify_intervals_witness :
    (0 : ℚ) ≤ 3 ∧ ((3 : ℚ) < 5 → (classify 3).tier = Tier.MINIMAL ∧
      (classify 3).advice = "Recent rainfall is sufficient. Monitor crop condition.") :=
  ⟨by norm_num, (C1_classify_intervals 3 (by norm_num)).1⟩

/-- Claim C2: each threshold value belongs to the upper tier:
`classify 5 = LIGHT`, `classify 20 = MODERATE`, `classify 40 = HEAVY`,
while 4.999, 19.999 and 39.999 still fall in the lower tier. -/
theorem C2_boundary_tie_break :
    (classify 5).tier = Tier.LIGHT ∧
    (classify (4999/1000)).tier = Tier.MINIMAL ∧
    (classify 20).tier = Tier.MODERATE ∧
    (classify (19999/1000)).tier = Tier.LIGHT ∧
    (classify 40).tier = Tier.HEAVY ∧
    (classify (39999/1000)).tier = Tier.MODERATE := by
  refine ⟨?_, ?_, ?_, ?_, ?_, ?_⟩ <;> rw [classify_eq_ite] <;> norm_num

/-- Counterexample to claim C3: the code does not fail with InvalidInput
on the negative input -1; the conditional at src/app.py:166-181 coerces
it into the MINIMAL tier. -/
theorem C3_counterexample : (classify (-1)).tier = Tier.MINIMAL := by
  rw [classify_eq_ite]
  norm_num

/-- Claim C3 amended: the code performs no input validation at all.
The negative input -1 takes the first branch and yields the MINIMAL
tier, NaN and +infinity fall through every comparison to the else
branch and yield the HEAVY tier, and every input whatsoever is coerced
into one of the four tiers; no InvalidInput error exists in the code. -/
theorem C3_no_validation :
    classify (-1) =
      ⟨Tier.MINIMAL, "MINIMAL irrigation needed", "#4CAF50",
        "Recent rainfall is sufficient. Monitor crop condition."⟩ ∧
    recommend PyFloat.nan =
      ⟨Tier.HEAVY, "HEAVY irrigation required", "#F44336",
        "Crop water stress likely. Irrigate immediately!"⟩ ∧
    recommend PyFloat.inf =
      ⟨Tier.HEAVY, "HEAVY irrigation required", "#F44336",
        "Crop water stress likely. Irrigate immediately!"⟩ ∧
    ∀ x : PyFloat,
      (recommend x).tier = Tier.MINIMAL ∨ (recommend x).tier = Tier.LIGHT ∨
      (recommend x).tier = Tier.MODERATE ∨ (recommend x).tier = Tier.HEAVY := by
  refine ⟨?_, rfl, rfl, ?_⟩
  · rw [classify_eq_ite]
    norm_num
  · intro x
    unfold recommend
    split_ifs <;> simp

/-- Claim C4: the tier mapping is monotonic: for non-negative rationals
`a ≤ b`, the severity rank of the tier of `classify a` is at most the
severity rank of the tier of `classify b`. -/
theorem C4_monotone (a b : ℚ) (ha : 0 ≤ a) (hab : a ≤ b) :
    severity_rank (classify a).tier ≤ severity_rank (classify b).tier := by
  rw [classify_eq_ite, classify_eq_ite]
  split_ifs <;> first
    | decide
    | (exfalso; linarith)

/-- Witness for C4 at the concrete inputs 1 and 50. -/
theorem C4_monotone_witness :
    (0 : ℚ) ≤ 1 ∧ (1 : ℚ) ≤ 50 ∧
      severity_rank (classify 1).tier ≤ severity_rank (classify 50).tier :=
  ⟨by norm_num, by norm_num, C4_monotone 1 50 (by norm_num) (by norm_num)⟩

/-- Claim C5: classify is total and exhaustive on the non-negative
rationals: every `x ≥ 0` yields exactly one tier, and that tier is one
of MINIMAL, LIGHT, MODERATE, HEAVY. -/
theorem C5_total (x : ℚ) (hx : 0 ≤ x) :
    ∃! t : Tier, (classify x).tier = t ∧
      (t = Tier.MINIMAL ∨ t = Tier.LIGHT ∨ t = Tier.MODERATE ∨ t = Tier.HEAVY) := by
  have hmem : ∀ t : Tier,
      t = Tier.MINIMAL ∨ t = Tier.LIGHT ∨ t = Tier.MODERATE ∨ t = Tier.HEAVY := by
    intro t
    cases t <;> simp
  refine ⟨(classify x).tier, ⟨rfl, hmem _⟩, ?_⟩
  rintro t ⟨ht, -⟩
  exact ht.symm

/-- Witness for C5 at the concrete input 0. -/
theorem C5_total_witness :
    (0 : ℚ) ≤ 0 ∧
      ∃! t : Tier, (classify 0).tier = t ∧
        (t = Tier.MINIMAL ∨ t = Tier.LIGHT ∨ t = Tier.MODERATE ∨ t = Tier.HEAVY) :=
  ⟨le_refl 0, C5_total 0 (le_refl 0)⟩

/-- Claim C6: the advisory is deterministic and depends only on
`irrigation_needed_mm`: two weekly records with equal
`irrigation_needed_mm` produce identical AdvisoryResult values,
whatever their `rainfall_week_mm` and `etc_week_mm` fields hold. -/
theorem C6_depends_only_on_need (r1 r2 : WeeklyIrrigationRecord)
    (h : r1.irrigation_needed_mm = r2.irrigation_needed_mm) :
    dashboardRecommend r1 = dashboardRecommend r2 := by
  simp [dashboardRecommend, h]

/-- Witness for C6: two concrete records that agree on
`irrigation_needed_mm` but differ in rainfall and ETc get the same
advisory. -/
theorem C6_depends_only_on_need_witness :
    (⟨PyFloat.val 7, 10, 17⟩ : WeeklyIrrigationRecord).irrigation_needed_mm =
      (⟨PyFloat.val 7, 0, 7⟩ : WeeklyIrrigationRecord).irrigation_needed_mm ∧
    dashboardRecommend ⟨PyFloat.val 7, 10, 17⟩ =
      dashboardRecommend ⟨PyFloat.val 7, 0, 7⟩ :=
  ⟨rfl, C6_depends_only_on_need ⟨PyFloat.val 7, 10, 17⟩ ⟨PyFloat.val 7, 0, 7⟩ rfl⟩

/-- Claim C7: color and advice are fixed one-to-one functions of the
tier alone: every advisory carries exactly the color and advice listed
for its tier, distinct tiers carry distinct colors and distinct advice
strings, and two advisories with the same tier carry the same color and
the same advice. -/
theorem C7_presentation_fixed :
    (∀ x : PyFloat, (recommend x).color = colorOf (recommend x).tier ∧
      (recommend x).advice = adviceOf (recommend x).tier) ∧
    Function.Injective colorOf ∧
    Function.Injective adviceOf ∧
    ∀ x y : PyFloat, (recommend x).tier = (recommend y).tier →
      (recommend x).color = (recommend y).color ∧
      (recommend x).advice = (recommend y).advice := by
  have key : ∀ x : PyFloat, (recommend x).color = colorOf (recommend x).tier ∧
      (recommend x).advice = adviceOf (recommend x).tier := by
    intro x
    unfold recommend
    split_ifs <;> exact ⟨rfl, rfl⟩
  have hinj : ∀ f : Tier → String, (∀ a b : Tier, f a = f b → a = b) →
      Function.Injective f := fun f h a b => h a b
  refine ⟨key, hinj _ ?_, hinj _ ?_, ?_⟩
  · intro a b h
    cases a <;> cases b <;> first | rfl | exact absurd h (by decide)
  · intro a b h
    cases a <;> cases b <;> first | rfl | exact absurd h (by decide)
  · intro x y h
    exact ⟨by rw [(key x).1, (key y).1, h], by rw [(key x).2, (key y).2, h]⟩

/-- Witness for C7: the concrete inputs 1 and 2 share the MINIMAL tier
and hence share color and advice. -/
theorem C7_presentation_fixed_witness :
    (recommend (PyFloat.val 1)).tier = (recommend (PyFloat.val 2)).tier ∧
    ((recommend (PyFloat.val 1)).color = (recommend (PyFloat.val 2)).color ∧
     (recommend (PyFloat.val 1)).advice = (recommend (PyFloat.val 2)).advice) :=
  ⟨by decide, C7_presentation_fixed.2.2.2 (PyFloat.val 1) (PyFloat.val 2) (by decide)⟩

/-- Claim C8: literal scenario values: classify 0 yields MINIMAL with
its advice text, classify 35.5 yields MODERATE and classify 100 yields
HEAVY. -/
theorem C8_literal_scenarios :
    (classify 0).tier = Tier.MINIMAL ∧
    (classify 0).advice = "Recent rainfall is sufficient. Monitor crop condition." ∧
    (classify (71/2)).tier = Tier.MODERATE ∧
    (classify 100).tier = Tier.HEAVY := by
  refine ⟨?_, ?_, ?_, ?_⟩ <;> rw [classify_eq_ite] <;> norm_num

/-- Claim C9 (implicit): every strictly negative finite input satisfies
the first comparison of the cascade, so it lands in the first branch:
MINIMAL, color "#4CAF50" and the MINIMAL advice text, with no error. -/
theorem C9_negative_first_branch (x : ℚ) (hx : x < 0) :
    classify x =
      ⟨Tier.MINIMAL, "MINIMAL irrigation needed", "#4CAF50",
        "Recent rainfall is sufficient. Monitor crop condition."⟩ := by
  rw [classify_eq_ite, if_pos (by linarith)]

/-- Witness for C9 at the concrete input -2. -/
theorem C9_negative_first_branch_witness :
    (-2 : ℚ) < 0 ∧
      classify (-2) =
        ⟨Tier.MINIMAL, "MINIMAL irrigation needed", "#4CAF50",
          "Recent rainfall is sufficient. Monitor crop condition."⟩ :=
  ⟨by norm_num, C9_negative_first_branch (-2) (by norm_num)⟩

/-- Claim C10 (implicit): on NaN every `<` comparison of the cascade is
false, so the conditional falls through to the else branch: HEAVY,
color "#F44336" and the HEAVY advice text, with no error. -/
theorem C10_nan_else_branch :
    recommend PyFloat.nan =
      ⟨Tier.HEAVY, "HEAVY irrigation required", "#F44336",
        "Crop water stress likely. Irrigate immediately!"⟩ := rfl

end Gatsibo
